import Mathlib

/-!
Verification development for the `letschat` Python client library
(`src/letschat/__init__.py`).  The Python code is shallowly embedded:
pure request-building code becomes Lean functions, stateful wrapper
objects become explicit state passing, and fallible code returns
`Except`/`Option`.
-/

/-- Scalar values that may appear in a request parameter mapping:
strings, integers, booleans (matching the Python values passed to
`params` dictionaries in the source). -/
inductive PyVal where
  | str (s : String)
  | int (n : Int)
  | bool (b : Bool)
  deriving DecidableEq, Repr

/-- An ordered association list standing for a Python dict built by
successive insertions of distinct keys (insertion order preserved). -/
abbrev Params := List (String × PyVal)

/-- The keys of a parameter mapping. -/
def Params.keys (ps : Params) : List String := ps.map Prod.fst

/-- Dict lookup on a parameter mapping. -/
def Params.get (ps : Params) (k : String) : Option PyVal :=
  match ps with
  | [] => none
  | (k2, v) :: rest => if k2 = k then some v else Params.get rest k

/-- An HTTP request as assembled by the `requests` library.
Modelled from the spec: the `requests` library is an external
dependency, not part of this repository.  Its `params=` keyword
argument is always encoded into the URL query string, for every HTTP
method; the request body is populated only from the `data=` and
`files=` keyword arguments. -/
structure HttpRequest where
  method : String
  url : String
  queryParams : Params
  bodyFields : Params
  deriving DecidableEq, Repr

/-- Python `str.lower()`: each character mapped to its lowercase
form. -/
def py_lower (s : String) : String := String.mk (s.data.map Char.toLower)

/-- Embeds `API._make_call` (src/letschat/__init__.py lines 224-243).
The method-name dictionary lookup raises `KeyError` (here: `none`) for
an unrecognised method; otherwise the call is dispatched to
`requests.get/post/put/delete` with `params=params`, so the mapping
always lands in the query string and the body is empty. -/
def API.make_call (endpoint : String) (method : String)
    (api_bits : List String) (params : Params) : Option HttpRequest :=
  let m := py_lower method
  if m = "get" ∨ m = "post" ∨ m = "put" ∨ m = "delete" then
    some { method := m
           url := endpoint ++ "/" ++ String.intercalate "/" api_bits
           queryParams := params
           bodyFields := [] }
  else
    none

/-- Embeds the parameter-building portion of `API.get_messages`
(src/letschat/__init__.py lines 316-337).  Each conditional insertion
into the `params` dict is rendered as an append of a singleton list;
all keys are distinct so the dict is this ordered association list. -/
def API.get_messages_params (room_id : String)
    (since_id : Option String) (from_ : Option String) (to_ : Option String)
    (skip : Int) (take : Int) (reverse : Bool)
    (expand_owner : Bool) (expand_room : Bool) : Params :=
  let params : Params := [("room", PyVal.str room_id)]
  let params := match since_id with
    | some s => params ++ [("since_id", PyVal.str s)]
    | none => params
  let params := match from_ with
    | some s => params ++ [("from", PyVal.str s)]
    | none => params
  let params := match to_ with
    | some s => params ++ [("to", PyVal.str s)]
    | none => params
  let params := if skip ≠ 0 then params ++ [("skip", PyVal.int skip)] else params
  let params := if take ≠ 500 then params ++ [("take", PyVal.int take)] else params
  let params := if ¬ reverse then params ++ [("reverse", PyVal.bool reverse)] else params
  let expands := if expand_owner then "owner" else ""
  let expands := if expand_room then (if expands ≠ "" then expands ++ "," else expands) ++ "room" else expands
  if expands ≠ "" then params ++ [("expand", PyVal.str expands)] else params

/-- Embeds the parameter-building portion of `API.get_files`
(src/letschat/__init__.py lines 343-349). -/
def API.get_files_params (room_id : String) (skip : Int) (take : Int) : Params :=
  let params : Params := [("room", PyVal.str room_id)]
  let params := if skip ≠ 0 then params ++ [("skip", PyVal.int skip)] else params
  if take ≠ 500 then params ++ [("take", PyVal.int take)] else params

/-- Embeds the parameter-building portion of `API.update_room`
(src/letschat/__init__.py lines 276-282): only the provided
(non-`None`) fields are inserted. -/
def API.update_room_params (name : Option String) (description : Option String) : Params :=
  let params : Params := []
  let params := match name with
    | some n => params ++ [("name", PyVal.str n)]
    | none => params
  match description with
  | some d => params ++ [("description", PyVal.str d)]
  | none => params

/-- Embeds `API.update_room` as the request it issues: a PUT to
`rooms/<slug>` with the conditionally built parameters. -/
def API.update_room_call (endpoint : String) (room_slug : String)
    (name : Option String) (description : Option String) : Option HttpRequest :=
  API.make_call endpoint "put" ["rooms", room_slug]
    (API.update_room_params name description)

/-- A message record held by the chat server; only the id matters to
the cursor logic of the client. -/
structure SrvMessage where
  id : String
  text : String
  deriving DecidableEq, Repr

/-- The strict lexicographic order on message ids, as a boolean on the
character lists (equivalent to `<` on `String`, see `id_lt_iff`). -/
def id_lt (a b : String) : Bool := decide (a.toList < b.toList)

/-- Modelled from the spec: the Lets-Chat server is not part of this
repository.  Its `GET /messages` behaviour is modelled from the
docstring of `API.get_messages` (src/letschat/__init__.py lines
300-314): `since_id` keeps only messages whose id is greater than
(more recent than) the given id; `reverse = true` returns most recent
first, otherwise chronological order; `skip` discards a prefix and
`take` limits the count.  The store is the room history in
chronological order. -/
def server_get_messages (store : List SrvMessage) (since_id : Option String)
    (skip : Nat) (take : Nat) (reverse : Bool) : List SrvMessage :=
  let filtered := match since_id with
    | some s => store.filter (fun (m : SrvMessage) => id_lt s m.id)
    | none => store
  let ordered := if reverse then filtered.reverse else filtered
  (ordered.drop skip).take take

/-- The state of a `Room` wrapper object (src/letschat/__init__.py
lines 127-151), minus the `api` back-reference. -/
structure Room where
  id : String
  slug : String
  _name : String
  _description : String
  created : String
  lastActive : String
  owner : String
  _last_seen : String
  deriving DecidableEq, Repr

/-- Embeds `Room.__init__` (src lines 143-151): `_last_seen` starts
empty, then the single most recent message is fetched with `take=1`
(default `reverse=True`) and indexed at `[0]`; an `IndexError` on an
empty result (here: `head? = none`) is caught and the cursor stays
empty. -/
def Room.init (store : List SrvMessage)
    (id slug name description created lastActive owner : String) : Room :=
  let base : Room :=
    { id := id, slug := slug, _name := name, _description := description,
      created := created, lastActive := lastActive, owner := owner,
      _last_seen := "" }
  match (server_get_messages store none 0 1 true).head? with
  | some most_recent => { base with _last_seen := most_recent.id }
  | none => base

/-- The parameters `Room.unread` (src lines 184-190) hands to
`API.get_messages`: `since_id = self._last_seen`, `reverse = False`,
owner and room expansion on, everything else at its default. -/
def Room.unread_params (r : Room) : Params :=
  API.get_messages_params r.id (some r._last_seen) none none 0 500 false true true

/-- Embeds `Room.unread` (src lines 184-190) against the modelled
server: fetch the messages after the cursor in chronological order,
and when the batch is non-empty advance `_last_seen` to the id of its
last element (`m[-1]` in the source).  Returns the batch and the
updated room state. -/
def Room.unread (r : Room) (store : List SrvMessage) : List SrvMessage × Room :=
  let m := server_get_messages store (some r._last_seen) 0 500 false
  match m.getLast? with
  | some last => (m, { r with _last_seen := last.id })
  | none => (m, r)

/-- Embeds the `name` property setter (src lines 165-167): it issues
`api.update_room(slug, name=new_name)` and assigns nothing to
`self._name` or any other attribute, so the state is returned as it
was. -/
def Room.set_name (r : Room) (endpoint : String) (new_name : String) :
    Room × Option HttpRequest :=
  (r, API.update_room_call endpoint r.slug (some new_name) none)

/-- Embeds the `description` property setter (src lines 173-175). -/
def Room.set_description (r : Room) (endpoint : String) (new_description : String) :
    Room × Option HttpRequest :=
  (r, API.update_room_call endpoint r.slug none (some new_description))

/-- One read of the `Account.gravatar` property (src lines 47-53).
`cache` is the current `_gravatar` byte string (a list of byte
values; `[]` is the falsy empty byte string set by `__init__`), and
`fetch` is what the gravatar server would answer if contacted.
Returns the value produced (or the propagated HTTP error status), the
cache afterwards, and the number of network fetches performed. -/
def Account.gravatar_access (cache : List Nat) (fetch : Except Nat (List Nat)) :
    Except Nat (List Nat) × List Nat × Nat :=
  if cache = [] then
    match fetch with
    | Except.error status => (Except.error status, cache, 1)
    | Except.ok content => (Except.ok content, content, 1)
  else
    (Except.ok cache, cache, 0)

/-- Iterates `Account.gravatar_access` starting from a given cache,
with a fixed server answer, and totals the network fetches made. -/
def Account.repeat_gravatar (fetch : Except Nat (List Nat)) :
    List Nat → Nat → List Nat × Nat
  | cache, 0 => (cache, 0)
  | cache, Nat.succ n =>
      let step := Account.gravatar_access cache fetch
      let rest := Account.repeat_gravatar fetch step.2.1 n
      (rest.1, step.2.2 + rest.2)

/-- The 8-byte PNG file signature. -/
def png_signature : List Nat := [0x89, 0x50, 0x4e, 0x47, 0x0d, 0x0a, 0x1a, 0x0a]

/-- The shared header check of the netpbm tests in `imghdr`: at least
three bytes, starting with the letter P, then one of the given digit
bytes, then a whitespace byte. -/
def pnm_test (h : List Nat) (digits : List Nat) : Bool :=
  match h with
  | b0 :: b1 :: b2 :: _ =>
      b0 == 0x50 && digits.contains b1 && [0x20, 0x09, 0x0a, 0x0d].contains b2
  | _ => false

/-- Modelled from the spec: the CPython standard-library function
`imghdr.what`, which `_guess_img_mimetype` calls, is not part of this
repository.  Each test inspects the leading bytes of the file and the
tests run in the stdlib order: jpeg, png, gif, tiff, rgb, pbm, pgm,
ppm, rast, xbm, bmp, webp, exr; `none` when no test matches. -/
def imghdr_what (h : List Nat) : Option String :=
  if ((h.drop 6).take 4 = [0x4a, 0x46, 0x49, 0x46] ∨
      (h.drop 6).take 4 = [0x45, 0x78, 0x69, 0x66]) then some "jpeg"
  else if h.take 8 = png_signature then some "png"
  else if (h.take 6 = [0x47, 0x49, 0x46, 0x38, 0x37, 0x61] ∨
           h.take 6 = [0x47, 0x49, 0x46, 0x38, 0x39, 0x61]) then some "gif"
  else if (h.take 2 = [0x4d, 0x4d] ∨ h.take 2 = [0x49, 0x49]) then some "tiff"
  else if h.take 2 = [0x01, 0xda] then some "rgb"
  else if pnm_test h [0x31, 0x34] then some "pbm"
  else if pnm_test h [0x32, 0x35] then some "pgm"
  else if pnm_test h [0x33, 0x36] then some "ppm"
  else if h.take 4 = [0x59, 0xa6, 0x6a, 0x95] then some "rast"
  else if h.take 8 = [0x23, 0x64, 0x65, 0x66, 0x69, 0x6e, 0x65, 0x20] then some "xbm"
  else if h.take 2 = [0x42, 0x4d] then some "bmp"
  else if (h.take 4 = [0x52, 0x49, 0x46, 0x46] ∧
           (h.drop 8).take 4 = [0x57, 0x45, 0x42, 0x50]) then some "webp"
  else if h.take 4 = [0x76, 0x2f, 0x31, 0x01] then some "exr"
  else none

/-- The literal mapping dict of `_guess_img_mimetype`
(src/letschat/__init__.py lines 13-25). -/
def mimetype_table : List (String × String) :=
  [("rgb", "image/x-rgb"), ("gif", "image/gif"), ("png", "image/png"),
   ("pbm", "x-pbm"), ("pgm", "x-pgm"), ("ppm", "x-ppm"),
   ("tiff", "image/tiff"), ("rast", "image/x-rast"), ("xbm", "image/xbm"),
   ("jpeg", "image/jpeg"), ("bmp", "image/bmp")]

/-- Embeds `_guess_img_mimetype` (src lines 9-25): `None` from
`imghdr.what` raises `ValueError`; a detected type absent from the
mapping dict would raise `KeyError`. -/
def guess_img_mimetype (contents : List Nat) : Except String String :=
  match imghdr_what contents with
  | none => Except.error "ValueError: File contents are not recognisable as an image"
  | some t =>
      match mimetype_table.lookup t with
      | some m => Except.ok m
      | none => Except.error "KeyError"

/-- The multipart upload request issued by `API.post_file`
(src lines 351-367): a POST to `endpoint + \x22/files\x22` whose body
carries the form fields `post=true` and `room`, and the file part with
the given filename and mimetype. -/
def API.post_file_request (endpoint room_id filename mimetype : String) : HttpRequest :=
  { method := "post"
    url := endpoint ++ "/files"
    queryParams := []
    bodyFields := [("post", PyVal.str "true"), ("room", PyVal.str room_id),
                   ("file.filename", PyVal.str filename),
                   ("file.mimetype", PyVal.str mimetype)] }

/-- Embeds `Room.post_image` (src lines 202-207): the mimetype guess
runs first and its `ValueError` propagates before `API.post_file` is
reached, so on failure no request is issued.  Returns the outcome and
the list of network requests made. -/
def Room.post_image (r : Room) (endpoint : String) (contents : List Nat)
    (filename : String) : Except String String × List HttpRequest :=
  match guess_img_mimetype contents with
  | Except.error e => (Except.error e, [])
  | Except.ok mimetype =>
      (Except.ok mimetype, [API.post_file_request endpoint r.id filename mimetype])

/-- A Python value as passed at a call site: a scalar string or a
JSON-object dict with string fields, enough to model the argument
binding that the claims inspect. -/
inductive PyObj where
  | str (s : String)
  | dict (fields : List (String × String))
  deriving DecidableEq, Repr

/-- The state of an `Account` wrapper (src lines 33-41), minus the
`api` back-reference and the gravatar cache (treated separately). -/
structure Account where
  username : PyObj
  id : PyObj
  displayName : PyObj
  firstName : PyObj
  lastName : PyObj
  avatar : PyObj
  deriving DecidableEq, Repr

/-- Embeds the binding of positional arguments (those after `self`
and `api`) to the parameters of `Account.__init__` (src line 33):
`username`, `id`, `displayName`, `avatar` are required positionally;
`firstName` and `lastName` default to the empty string.  Python raises
`TypeError` (here: `error`) when required parameters are left unbound
or extra positional arguments remain. -/
def Account.bind_init_args (args : List PyObj) : Except String Account :=
  match args with
  | [username, id, displayName, avatar] =>
      Except.ok { username := username, id := id, displayName := displayName,
                  avatar := avatar, firstName := PyObj.str "", lastName := PyObj.str "" }
  | [username, id, displayName, avatar, firstName] =>
      Except.ok { username := username, id := id, displayName := displayName,
                  avatar := avatar, firstName := firstName, lastName := PyObj.str "" }
  | [username, id, displayName, avatar, firstName, lastName] =>
      Except.ok { username := username, id := id, displayName := displayName,
                  avatar := avatar, firstName := firstName, lastName := lastName }
  | _ => Except.error "TypeError: __init__ missing required positional arguments"

/-- The state of a `File` wrapper (src lines 61-79), minus the `api`
back-reference and the content cache. -/
structure FileObj where
  id : String
  name : String
  owner : Account
  room : String
  size : String
  type : String
  uploaded : String
  url : String
  deriving DecidableEq, Repr

/-- Embeds `File.__init__` (src lines 61-79).  The `owner` argument
(an id) is resolved through `api.get_user(owner)`; `user_record` is
the JSON record that call returns.  The source then evaluates
`Account(self.api, api.get_user(owner))`, i.e. it passes the whole
record as the single positional argument after `api`, binding it to
`username` and leaving `id`, `displayName` and `avatar` unbound. -/
def File.init (user_record : List (String × String))
    (id name owner room size type uploaded url : String) : Except String FileObj :=
  (Account.bind_init_args [PyObj.dict user_record]).map
    (fun acct =>
      { id := id, name := name, owner := acct, room := room,
        size := size, type := type, uploaded := uploaded, url := url })

/-- A concrete two-message room history used to instantiate theorems
with hypotheses. -/
def wStore : List SrvMessage :=
  [{ id := "a1", text := "hello" }, { id := "b2", text := "world" }]

/-- A concrete room state used to instantiate theorems with
hypotheses. -/
def wRoom : Room :=
  { id := "r1", slug := "general", _name := "General",
    _description := "the general room", created := "2015-01-01",
    lastActive := "2015-01-02", owner := "u1", _last_seen := "" }

/-- A concrete user record as returned by `GET /users/<id>`. -/
def wUserRecord : List (String × String) :=
  [("username", "alice"), ("id", "u1"),
   ("displayName", "Alice"), ("avatar", "abc123")]

lemma id_lt_iff (a b : String) : id_lt a b = true ↔ a < b := by
  unfold id_lt
  rw [decide_eq_true_eq, String.lt_iff_toList_lt]

lemma mem_of_getLast_opt {α : Type} {l : List α} {a : α}
    (h : l.getLast? = some a) : a ∈ l := by
  rcases List.getLast?_eq_some_iff.mp h with ⟨ys, rfl⟩
  simp

lemma rel_getLast_of_pairwise {α : Type} {R : α → α → Prop} :
    ∀ (l : List α), l.Pairwise R → ∀ (last : α), l.getLast? = some last →
      ∀ (a : α), a ∈ l → a = last ∨ R a last := by
  intro l
  induction l with
  | nil =>
    intro _ last h
    simp at h
  | cons x xs ih =>
    intro hp last hl a ha
    cases xs with
    | nil =>
      simp only [List.getLast?_singleton, Option.some.injEq] at hl
      rcases List.mem_singleton.mp ha with rfl
      exact Or.inl hl
    | cons y ys =>
      rw [List.getLast?_cons_cons] at hl
      rcases List.mem_cons.mp ha with rfl | ha2
      · right
        have hmem : last ∈ y :: ys := mem_of_getLast_opt hl
        exact (List.pairwise_cons.mp hp).1 last hmem
      · exact ih (List.pairwise_cons.mp hp).2 last hl a ha2

/-- Claim C1, amended: for every call issued through the transport
(`API._make_call`), whatever the method (GET, POST, PUT or DELETE),
the `params` mapping is passed as URL query parameters and the
request body is empty; `params` is never passed as body fields. -/
theorem C1_transport_params_in_query (endpoint method : String)
    (bits : List String) (params : Params) (req : HttpRequest)
    (h : API.make_call endpoint method bits params = some req) :
    req.queryParams = params ∧ req.bodyFields = [] := by
  by_cases hc : (py_lower method = "get" ∨ py_lower method = "post" ∨
      py_lower method = "put" ∨ py_lower method = "delete")
  · simp only [API.make_call, if_pos hc, Option.some.injEq] at h
    subst h
    exact ⟨rfl, rfl⟩
  · simp only [API.make_call, if_neg hc] at h
    cases h

/-- Witness for the amended claim C1 at a concrete PUT call. -/
theorem C1_witness :
    API.make_call "http://h" "put" ["rooms", "general"] [("name", PyVal.str "x")] =
      some (HttpRequest.mk "put" "http://h/rooms/general" [("name", PyVal.str "x")] []) ∧
    ((HttpRequest.mk "put" "http://h/rooms/general" [("name", PyVal.str "x")] []).queryParams
        = [("name", PyVal.str "x")] ∧
     (HttpRequest.mk "put" "http://h/rooms/general" [("name", PyVal.str "x")] []).bodyFields
        = []) :=
  ⟨by rfl,
   C1_transport_params_in_query "http://h" "put" ["rooms", "general"]
     [("name", PyVal.str "x")] _ (by rfl)⟩

/-- Claim C1, counterexample to the claim as stated: a POST issued
through the transport carries `params` in the URL query string and
sends an empty body, rather than passing the mapping as body
fields. -/
theorem C1_counterexample :
    (API.make_call "http://h" "post" ["messages"] [("text", PyVal.str "hi")]).map
        HttpRequest.bodyFields = some [] ∧
    (API.make_call "http://h" "post" ["messages"] [("text", PyVal.str "hi")]).map
        HttpRequest.queryParams = some [("text", PyVal.str "hi")] := by
  exact ⟨by rfl, by rfl⟩

/-- Claim C2: in `get_messages` and `get_files`, every optional
parameter left at its default value (skip=0, take=500, reverse=True,
since_id/from/to absent) is omitted entirely from the emitted request
parameters, and every optional parameter given a non-default value is
included; in particular take=500 produces no take key while any other
take does. -/
theorem C2_default_params_omitted (room_id : String)
    (since_id from_ to_ : Option String) (skip take : Int)
    (reverse expand_owner expand_room : Bool) (fskip ftake : Int) :
    ((API.get_messages_params room_id since_id from_ to_ skip take reverse
        expand_owner expand_room).get "skip"
      = if skip = 0 then none else some (PyVal.int skip)) ∧
    ((API.get_messages_params room_id since_id from_ to_ skip take reverse
        expand_owner expand_room).get "take"
      = if take = 500 then none else some (PyVal.int take)) ∧
    ((API.get_messages_params room_id since_id from_ to_ skip take reverse
        expand_owner expand_room).get "reverse"
      = if reverse then none else some (PyVal.bool false)) ∧
    ((API.get_messages_params room_id since_id from_ to_ skip take reverse
        expand_owner expand_room).get "since_id" = since_id.map PyVal.str) ∧
    ((API.get_messages_params room_id since_id from_ to_ skip take reverse
        expand_owner expand_room).get "from" = from_.map PyVal.str) ∧
    ((API.get_messages_params room_id since_id from_ to_ skip take reverse
        expand_owner expand_room).get "to" = to_.map PyVal.str) ∧
    ((API.get_files_params room_id fskip ftake).get "skip"
      = if fskip = 0 then none else some (PyVal.int fskip)) ∧
    ((API.get_files_params room_id fskip ftake).get "take"
      = if ftake = 500 then none else some (PyVal.int ftake)) := by
  have hgf : ((API.get_files_params room_id fskip ftake).get "skip"
        = if fskip = 0 then none else some (PyVal.int fskip)) ∧
      ((API.get_files_params room_id fskip ftake).get "take"
        = if ftake = 500 then none else some (PyVal.int ftake)) := by
    by_cases h1 : fskip = 0 <;> by_cases h2 : ftake = 500 <;>
      simp [API.get_files_params, Params.get, h1, h2]
  have hgm : ((API.get_messages_params room_id since_id from_ to_ skip take reverse
          expand_owner expand_room).get "skip"
        = if skip = 0 then none else some (PyVal.int skip)) ∧
      ((API.get_messages_params room_id since_id from_ to_ skip take reverse
          expand_owner expand_room).get "take"
        = if take = 500 then none else some (PyVal.int take)) ∧
      ((API.get_messages_params room_id since_id from_ to_ skip take reverse
          expand_owner expand_room).get "reverse"
        = if reverse then none else some (PyVal.bool false)) ∧
      ((API.get_messages_params room_id since_id from_ to_ skip take reverse
          expand_owner expand_room).get "since_id" = since_id.map PyVal.str) ∧
      ((API.get_messages_params room_id since_id from_ to_ skip take reverse
          expand_owner expand_room).get "from" = from_.map PyVal.str) ∧
      ((API.get_messages_params room_id since_id from_ to_ skip take reverse
          expand_owner expand_room).get "to" = to_.map PyVal.str) := by
    cases since_id <;> cases from_ <;> cases to_ <;>
      by_cases h1 : skip = 0 <;> by_cases h2 : take = 500 <;>
      cases reverse <;> cases expand_owner <;> cases expand_room <;>
      simp [API.get_messages_params, Params.get, h1, h2]
  exact ⟨hgm.1, hgm.2.1, hgm.2.2.1, hgm.2.2.2.1, hgm.2.2.2.2.1, hgm.2.2.2.2.2,
         hgf.1, hgf.2⟩

/-- Claim C9: assigning to a Room name (or description) issues an
`update_room` PUT containing only the provided field, and mutates
nothing in the wrapper: the cached `_name` / `_description` and all
other Room fields are unchanged, so reading the property immediately
after assignment returns the prior value. -/
theorem C9_setters_no_mutation (r : Room) (endpoint new_name new_description : String) :
    (Room.set_name r endpoint new_name).1 = r ∧
    (Room.set_name r endpoint new_name).1._name = r._name ∧
    (Room.set_name r endpoint new_name).2 =
      some (HttpRequest.mk "put"
        (endpoint ++ "/" ++ String.intercalate "/" ["rooms", r.slug])
        [("name", PyVal.str new_name)] []) ∧
    (Room.set_description r endpoint new_description).1 = r ∧
    (Room.set_description r endpoint new_description).1._description = r._description ∧
    (Room.set_description r endpoint new_description).2 =
      some (HttpRequest.mk "put"
        (endpoint ++ "/" ++ String.intercalate "/" ["rooms", r.slug])
        [("description", PyVal.str new_description)] []) := by
  refine ⟨rfl, rfl, ?_, rfl, rfl, ?_⟩ <;>
    simp [Room.set_name, Room.set_description, API.update_room_call, API.make_call,
      API.update_room_params, show py_lower "put" = "put" from rfl]

/-- Claim C10: a Room whose `_last_seen` cursor is the empty string
issues an unread request that includes `since_id` with an
empty-string value rather than omitting it, because `get_messages`
omits `since_id` only when it is `None`. -/
theorem C10_empty_cursor_since_id_sent (r : Room) (h : r._last_seen = "") :
    (Room.unread_params r).get "since_id" = some (PyVal.str "") ∧
    "since_id" ∈ (Room.unread_params r).keys := by
  constructor <;>
    simp [Room.unread_params, API.get_messages_params, Params.get, Params.keys, h]

/-- Witness for claim C10 at a concrete empty-cursor room. -/
theorem C10_witness :
    wRoom._last_seen = "" ∧
    ((Room.unread_params wRoom).get "since_id" = some (PyVal.str "") ∧
     "since_id" ∈ (Room.unread_params wRoom).keys) :=
  ⟨rfl, C10_empty_cursor_since_id_sent wRoom rfl⟩

/-- Claim C5 (code bug): `File.__init__` passes the whole user record
returned by `api.get_user(owner)` as the single positional argument
of `Account`, so `id`, `displayName` and `avatar` are left unbound
and construction raises `TypeError` instead of producing an Account
populated from the record.  Evaluated here at a concrete file
record. -/
theorem C5_file_init_type_error :
    File.init wUserRecord "f1" "pic.png" "u1" "r1" "123" "image/png"
        "2015-02-02T01:43:19Z" "files/f1" =
      Except.error "TypeError: __init__ missing required positional arguments" := by
  rfl

/-- Claim C7: MIME-type guessing on bytes carrying a valid PNG
signature returns image/png; on bytes matching no known image
signature, `post_image` fails with the `ValueError` from
`_guess_img_mimetype` and issues no upload request. -/
theorem C7_png_guess_and_no_upload (rest contents : List Nat) (r : Room)
    (endpoint filename : String) (h : imghdr_what contents = none) :
    guess_img_mimetype (png_signature ++ rest) = Except.ok "image/png" ∧
    (Room.post_image r endpoint contents filename).1 =
      Except.error "ValueError: File contents are not recognisable as an image" ∧
    (Room.post_image r endpoint contents filename).2 = [] := by
  refine ⟨?_, ?_, ?_⟩
  · simp [guess_img_mimetype, imghdr_what, png_signature, mimetype_table, List.lookup]
  · simp [Room.post_image, guess_img_mimetype, h]
  · simp [Room.post_image, guess_img_mimetype, h]

/-- Witness for claim C7 at concrete byte strings. -/
theorem C7_witness :
    imghdr_what [0, 1, 2] = none ∧
    (guess_img_mimetype (png_signature ++ []) = Except.ok "image/png" ∧
     (Room.post_image wRoom "http://h" [0, 1, 2] "x.png").1 =
       Except.error "ValueError: File contents are not recognisable as an image" ∧
     (Room.post_image wRoom "http://h" [0, 1, 2] "x.png").2 = []) :=
  ⟨by decide, C7_png_guess_and_no_upload [] [0, 1, 2] wRoom "http://h" "x.png" (by decide)⟩

lemma repeat_gravatar_cached (fetch : Except Nat (List Nat)) (cache : List Nat)
    (h : cache ≠ []) (n : Nat) :
    Account.repeat_gravatar fetch cache n = (cache, 0) := by
  induction n with
  | zero => rfl
  | succ k ih =>
    simp [Account.repeat_gravatar, Account.gravatar_access, h, ih]

/-- Claim C8, amended: an access with a non-empty cache performs no
fetch and returns the cached bytes; when the fetched content is
non-empty, any number of accesses from the empty initial cache
performs exactly one fetch in total, the first access caching the
content; an HTTP error from the fetch propagates.  (The unamended
claim fails when the fetch returns the empty byte string, which the
falsy cache check never stores: see the counterexample.) -/
theorem C8_gravatar_memoized (content : List Nat) (h : content ≠ [])
    (n : Nat) (status : Nat) :
    Account.gravatar_access [] (Except.ok content) = (Except.ok content, content, 1) ∧
    Account.gravatar_access content (Except.ok content) = (Except.ok content, content, 0) ∧
    Account.repeat_gravatar (Except.ok content) [] (n + 1) = (content, 1) ∧
    Account.gravatar_access [] (Except.error status) = (Except.error status, [], 1) := by
  refine ⟨rfl, ?_, ?_, rfl⟩
  · simp [Account.gravatar_access, h]
  · simp [Account.repeat_gravatar, Account.gravatar_access,
      repeat_gravatar_cached _ _ h]

/-- Witness for the amended claim C8 at a one-byte gravatar. -/
theorem C8_witness :
    ([1] : List Nat) ≠ [] ∧
    (Account.gravatar_access [] (Except.ok [1]) = (Except.ok [1], [1], 1) ∧
     Account.gravatar_access [1] (Except.ok [1]) = (Except.ok [1], [1], 0) ∧
     Account.repeat_gravatar (Except.ok [1]) [] (0 + 1) = ([1], 1) ∧
     Account.gravatar_access [] (Except.error 404) = (Except.error 404, [], 1)) :=
  ⟨by decide, C8_gravatar_memoized [1] (by decide) 0 404⟩

/-- Claim C8, counterexample to the claim as stated: when the
gravatar server answers with the empty byte string, two accesses on
the same fresh Account perform two fetches, not exactly one, because
the empty cached value stays falsy. -/
theorem C8_counterexample :
    Account.repeat_gravatar (Except.ok []) [] 2 = ([], 2) ∧
    (Account.repeat_gravatar (Except.ok []) [] 2).2 ≠ 1 := by
  constructor
  · rfl
  · decide

lemma unread_spec (store : List SrvMessage) (r : Room)
    (hlen : (store.filter (fun m => id_lt r._last_seen m.id)).length ≤ 500) :
    Room.unread r store =
      (store.filter (fun m => id_lt r._last_seen m.id),
       match (store.filter (fun m => id_lt r._last_seen m.id)).getLast? with
       | some last => { r with _last_seen := last.id }
       | none => r) := by
  unfold Room.unread server_get_messages
  simp [List.take_of_length_le hlen]
  split <;> rfl

/-- Claim C3: a call to `unread()` returns exactly the messages
strictly after the previous `_last_seen` cursor, in chronological
order, and when the batch is non-empty the cursor afterwards equals
the id of its last (most recent) message; the request asks for owner
and room expansion with `reverse` disabled and `since_id` set to the
cursor. -/
theorem C3_unread_advances_cursor (store : List SrvMessage) (r : Room)
    (hsorted : store.Pairwise (fun a b => id_lt a.id b.id = true))
    (hlen : (store.filter (fun m => id_lt r._last_seen m.id)).length ≤ 500) :
    (Room.unread r store).1 = store.filter (fun m => id_lt r._last_seen m.id) ∧
    (∀ m ∈ (Room.unread r store).1, r._last_seen < m.id) ∧
    (Room.unread r store).1.Pairwise (fun a b => a.id < b.id) ∧
    (∀ last, (Room.unread r store).1.getLast? = some last →
      (Room.unread r store).2._last_seen = last.id) ∧
    (Room.unread_params r).get "expand" = some (PyVal.str "owner,room") ∧
    (Room.unread_params r).get "reverse" = some (PyVal.bool false) ∧
    (Room.unread_params r).get "since_id" = some (PyVal.str r._last_seen) := by
  have hsorted2 : store.Pairwise (fun a b => a.id < b.id) :=
    hsorted.imp (fun h => (id_lt_iff _ _).mp h)
  have hu := unread_spec store r hlen
  refine ⟨?_, ?_, ?_, ?_, ?_, ?_, ?_⟩
  · rw [hu]
  · intro m hm
    rw [hu] at hm
    simp only [List.mem_filter] at hm
    exact (id_lt_iff _ _).mp hm.2
  · rw [hu]
    exact List.Pairwise.sublist (List.filter_sublist _) hsorted2
  · intro last hl
    rw [hu] at hl ⊢
    simp only at hl ⊢
    rw [hl]
  · simp [Room.unread_params, API.get_messages_params, Params.get]
  · simp [Room.unread_params, API.get_messages_params, Params.get]
  · simp [Room.unread_params, API.get_messages_params, Params.get]

/-- Witness for claim C3 at a concrete two-message history. -/
theorem C3_witness :
    wStore.Pairwise (fun a b => id_lt a.id b.id = true) ∧
    (wStore.filter (fun m => id_lt wRoom._last_seen m.id)).length ≤ 500 ∧
    ((Room.unread wRoom wStore).1 = wStore.filter (fun m => id_lt wRoom._last_seen m.id) ∧
     (∀ m ∈ (Room.unread wRoom wStore).1, wRoom._last_seen < m.id) ∧
     (Room.unread wRoom wStore).1.Pairwise (fun a b => a.id < b.id) ∧
     (∀ last, (Room.unread wRoom wStore).1.getLast? = some last →
       (Room.unread wRoom wStore).2._last_seen = last.id) ∧
     (Room.unread_params wRoom).get "expand" = some (PyVal.str "owner,room") ∧
     (Room.unread_params wRoom).get "reverse" = some (PyVal.bool false) ∧
     (Room.unread_params wRoom).get "since_id" = some (PyVal.str wRoom._last_seen)) :=
  ⟨by decide, by decide, C3_unread_advances_cursor wStore wRoom (by decide) (by decide)⟩

/-- Claim C4: the `_last_seen` cursor never moves backward: an empty
batch leaves the room state untouched, a non-empty batch strictly
advances the cursor, and a second `unread()` call with no new
messages in between returns the empty sequence and leaves the cursor
where it was. -/
theorem C4_cursor_monotone (store : List SrvMessage) (r : Room)
    (hsorted : store.Pairwise (fun a b => id_lt a.id b.id = true))
    (hlen : store.length ≤ 500) :
    ((Room.unread r store).1 = [] → (Room.unread r store).2 = r) ∧
    (r._last_seen = (Room.unread r store).2._last_seen ∨
      r._last_seen < (Room.unread r store).2._last_seen) ∧
    (Room.unread (Room.unread r store).2 store).1 = [] ∧
    (Room.unread (Room.unread r store).2 store).2 = (Room.unread r store).2 := by
  have hsorted2 : store.Pairwise (fun a b => a.id < b.id) :=
    hsorted.imp (fun h => (id_lt_iff _ _).mp h)
  have hl0 : ∀ c : String, (store.filter (fun m => id_lt c m.id)).length ≤ 500 :=
    fun c => le_trans (List.length_filter_le _ _) hlen
  have hu1 := unread_spec store r (hl0 r._last_seen)
  rcases hg : (store.filter (fun m => id_lt r._last_seen m.id)).getLast? with _ | last
  · have hnil : store.filter (fun m => id_lt r._last_seen m.id) = [] := by
      simpa using congrArg Option.isSome hg
    have ho1 : Room.unread r store = (([] : List SrvMessage), r) := by
      rw [hu1, hg]
      simp [hnil]
    rw [ho1]
    have hu2 := unread_spec store r (hl0 r._last_seen)
    rw [hu2, hg]
    refine ⟨fun _ => rfl, Or.inl rfl, ?_, rfl⟩
    simp [hnil]
  · have hlast_mem : last ∈ store.filter (fun m => id_lt r._last_seen m.id) :=
      mem_of_getLast_opt hg
    have hlast_lt : r._last_seen < last.id :=
      (id_lt_iff _ _).mp (List.mem_filter.mp hlast_mem).2
    have hpairF : (store.filter (fun m => id_lt r._last_seen m.id)).Pairwise
        (fun a b => a.id < b.id) :=
      List.Pairwise.sublist (List.filter_sublist _) hsorted2
    have ho1 : Room.unread r store =
        (store.filter (fun m => id_lt r._last_seen m.id),
         { r with _last_seen := last.id }) := by
      rw [hu1, hg]
    have hnil2 : store.filter (fun m => id_lt last.id m.id) = [] := by
      rw [List.filter_eq_nil_iff]
      intro m hm hcon
      have h1 : last.id < m.id := (id_lt_iff _ _).mp hcon
      have h2 : m ∈ store.filter (fun m => id_lt r._last_seen m.id) := by
        rw [List.mem_filter]
        exact ⟨hm, (id_lt_iff _ _).mpr (lt_trans hlast_lt h1)⟩
      rcases rel_getLast_of_pairwise _ hpairF _ hg _ h2 with rfl | hlt
      · exact absurd h1 (lt_irrefl _)
      · exact absurd h1 (lt_asymm hlt)
    have hu2 := unread_spec store { r with _last_seen := last.id } (hl0 last.id)
    have ho2 : Room.unread { r with _last_seen := last.id } store =
        (([] : List SrvMessage), { r with _last_seen := last.id }) := by
      rw [hu2]
      simp [hnil2]
    rw [ho1]
    refine ⟨?_, Or.inr hlast_lt, ?_, ?_⟩
    · intro hns
      exact absurd (hg ▸ congrArg List.getLast? hns) (by simp)
    · simpa using congrArg Prod.fst ho2
    · simpa using congrArg Prod.snd ho2

/-- Witness for claim C4 at a concrete two-message history. -/
theorem C4_witness :
    wStore.Pairwise (fun a b => id_lt a.id b.id = true) ∧
    wStore.length ≤ 500 ∧
    (((Room.unread wRoom wStore).1 = [] → (Room.unread wRoom wStore).2 = wRoom) ∧
     (wRoom._last_seen = (Room.unread wRoom wStore).2._last_seen ∨
       wRoom._last_seen < (Room.unread wRoom wStore).2._last_seen) ∧
     (Room.unread (Room.unread wRoom wStore).2 wStore).1 = [] ∧
     (Room.unread (Room.unread wRoom wStore).2 wStore).2 = (Room.unread wRoom wStore).2) :=
  ⟨by decide, by decide, C4_cursor_monotone wStore wRoom (by decide) (by decide)⟩

lemma head_opt_take_one {α : Type} (l : List α) : (l.take 1).head? = l.head? := by
  cases l <;> rfl

lemma init_seed_head (store : List SrvMessage) :
    (server_get_messages store none 0 1 true).head? = store.getLast? := by
  unfold server_get_messages
  simp [head_opt_take_one, List.head?_reverse]

/-- Claim C6: constructing a Room wrapper over an empty history does
not raise: the caught `IndexError` leaves `_last_seen` as the empty
string; over a non-empty history the cursor is seeded with the id of
the single most recent message. -/
theorem C6_zero_message_room (store : List SrvMessage)
    (id slug name description created lastActive owner : String) :
    (store = [] →
      (Room.init store id slug name description created lastActive owner)._last_seen = "") ∧
    (∀ mr, store.getLast? = some mr →
      (Room.init store id slug name description created lastActive owner)._last_seen = mr.id) := by
  unfold Room.init
  rw [init_seed_head]
  constructor
  · intro h
    subst h
    rfl
  · intro mr hmr
    rw [hmr]

/-- Witness for claim C6 at an empty and a two-message history. -/
theorem C6_witness :
    (([] : List SrvMessage) = [] ∧
     (Room.init [] "r1" "general" "General" "d" "c" "l" "u1")._last_seen = "") ∧
    (wStore.getLast? = some (SrvMessage.mk "b2" "world") ∧
     (Room.init wStore "r1" "general" "General" "d" "c" "l" "u1")._last_seen =
       (SrvMessage.mk "b2" "world").id) :=
  ⟨⟨rfl, (C6_zero_message_room [] "r1" "general" "General" "d" "c" "l" "u1").1 rfl⟩,
   ⟨by decide,
    (C6_zero_message_room wStore "r1" "general" "General" "d" "c" "l" "u1").2
      (SrvMessage.mk "b2" "world") (by decide)⟩⟩
